import Mathlib

/-!
Verification of the debug-bridge extension (`src/extension.ts`).

The file shallowly embeds the request handlers of the extension:
the three-call DAP capture (`captureDebugContext`), the Express route
handlers (`/debug/step`, `/debug/control`, `/debug/breakpoint`,
`/debug/breakpoints`, `/debug/evaluate`, `/debug/context`), the
port-binding loop of `startExpressServer`, and the port-descriptor
writer `writePortInfo`.

Modelling conventions:
* A JS object field that may be absent is an `Option`.
* JS numbers that the code does arithmetic on are `Int`.
* JS array indexing `xs[0]` is `List.head?`; reading a property of the
  `undefined` produced by indexing an empty array raises a `TypeError`,
  modelled by the `JsError.typeError` constructor.
* The external debug session is a record of total response functions:
  it models a host whose DAP requests succeed.
* Handlers return their HTTP status, their JSON body, and a trace of
  the external calls (DAP requests / host commands / breakpoint
  mutations) they performed, in order.
-/

/-- Minimal JSON value model for response bodies. -/
inductive JsonVal where
  | str (s : String)
  | num (n : Int)
  | bool (b : Bool)
  | null
  | arr (elems : List JsonVal)
  | obj (fields : List (String × JsonVal))

/-- One frame of a DAP `stackTrace` response. -/
structure StackFrame where
  id : Int
  name : String
  line : Int
  column : Int
  sourcePath : Option String
deriving DecidableEq, Repr

/-- DAP `stackTrace` response body. -/
structure StackTraceResponse where
  stackFrames : List StackFrame
deriving DecidableEq, Repr

/-- One scope of a DAP `scopes` response. -/
structure Scope where
  name : String
  variablesReference : Int
deriving DecidableEq, Repr

/-- DAP `scopes` response body. -/
structure ScopesResponse where
  scopes : List Scope
deriving DecidableEq, Repr

/-- One variable of a DAP `variables` response. -/
structure Variable where
  name : String
  value : String
  type : String
deriving DecidableEq, Repr

/-- DAP `variables` response body. -/
structure VariablesResponse where
  «variables» : List Variable
deriving DecidableEq, Repr

/-- DAP `evaluate` response body (the fields the code reads). -/
structure EvaluateResponse where
  result : String
  type : String
deriving DecidableEq, Repr

/-- The external debug session collaborator: `session.customRequest`
dispatched by request kind.  Total functions model a host whose
requests succeed; request failures are outside the claims below. -/
structure DebugSession where
  name : String
  type : String
  stackTraceResp : Int → StackTraceResponse
  scopesResp : Int → ScopesResponse
  variablesResp : Int → VariablesResponse
  evaluateResp : String → String → EvaluateResponse

/-- A DAP request issued through `session.customRequest`, with its
arguments as the code passes them. -/
inductive DapRequest where
  | stackTrace (threadId : Int)
  | scopes (frameId : Int)
  | variables (variablesReference : Int)
  | evaluate (expression : String) (context : String)
deriving DecidableEq, Repr

/-- A JS exception: `thrown` for `throw new Error(msg)`, `typeError`
for the runtime TypeError raised by reading a property of `undefined`. -/
inductive JsError where
  | thrown (msg : String)
  | typeError (msg : String)
deriving DecidableEq, Repr

/-- `error.message` as read by the route layer's catch blocks
(`error instanceof Error ? error.message : ...`). -/
def JsError.message : JsError → String
  | .thrown msg => msg
  | .typeError msg => msg

/-- The `session` sub-object of the captured context. -/
structure SessionInfo where
  name : String
  type : String
deriving DecidableEq, Repr

/-- The `currentFrame` sub-object of the captured context
(`topFrame.source?.path` is absent when the frame has no source). -/
structure CurrentFrame where
  file : Option String
  function : String
  line : Int
  column : Int
deriving DecidableEq, Repr

/-- The object assembled by `captureDebugContext`. -/
structure DebugContext where
  timestamp : String
  session : SessionInfo
  currentFrame : CurrentFrame
  stack : StackTraceResponse
  scopes : ScopesResponse
  «variables» : VariablesResponse
deriving DecidableEq, Repr

/-- `captureDebugContext` from `extension.ts` (lines 341-388).
`activeSession` is `vscode.debug.activeDebugSession`; `now` is the
value of `new Date().toISOString()`.  Returns the outcome together
with the ordered list of DAP requests issued.

`stackResp.stackFrames[0].id` on an empty `stackFrames` is modelled
faithfully to JS: indexing yields `undefined` and the subsequent
property read throws a TypeError (the code has no emptiness check);
likewise `scopesResp.scopes[0].variablesReference`. -/
def captureDebugContext (activeSession : Option DebugSession) (now : String) :
    Except JsError DebugContext × List DapRequest :=
  match activeSession with
  | none => (.error (.thrown "No active debug session"), [])
  | some session =>
    let stackResp := session.stackTraceResp 1
    match stackResp.stackFrames.head? with
    | none =>
      (.error (.typeError "Cannot read properties of undefined (reading 'id')"),
       [.stackTrace 1])
    | some frame0 =>
      let scopesResp := session.scopesResp frame0.id
      match scopesResp.scopes.head? with
      | none =>
        (.error (.typeError
            "Cannot read properties of undefined (reading 'variablesReference')"),
         [.stackTrace 1, .scopes frame0.id])
      | some scope0 =>
        let varsResp := session.variablesResp scope0.variablesReference
        let topFrame := frame0
        (.ok
          { timestamp := now
            session := { name := session.name, type := session.type }
            currentFrame :=
              { file := topFrame.sourcePath
                function := topFrame.name
                line := topFrame.line
                column := topFrame.column }
            stack := stackResp
            scopes := scopesResp
            «variables» := varsResp },
         [.stackTrace 1, .scopes frame0.id, .variables scope0.variablesReference])

/-- JSON encoding of a stack frame as relayed in the `stack` field. -/
def frameToJson (f : StackFrame) : JsonVal :=
  .obj [("id", .num f.id), ("name", .str f.name), ("line", .num f.line),
        ("column", .num f.column),
        ("source", match f.sourcePath with
                   | some p => .obj [("path", .str p)]
                   | none => .null)]

/-- JSON encoding of a scope. -/
def scopeToJson (s : Scope) : JsonVal :=
  .obj [("name", .str s.name), ("variablesReference", .num s.variablesReference)]

/-- JSON encoding of a variable. -/
def variableToJson (v : Variable) : JsonVal :=
  .obj [("name", .str v.name), ("value", .str v.value), ("type", .str v.type)]

/-- JSON encoding of the assembled debug context (`res.json(context)`). -/
def contextToJson (c : DebugContext) : JsonVal :=
  .obj [("timestamp", .str c.timestamp),
        ("session", .obj [("name", .str c.session.name),
                          ("type", .str c.session.type)]),
        ("currentFrame",
          .obj [("file", match c.currentFrame.file with
                         | some p => .str p
                         | none => .null),
                ("function", .str c.currentFrame.function),
                ("line", .num c.currentFrame.line),
                ("column", .num c.currentFrame.column)]),
        ("stack", .obj [("stackFrames", .arr (c.stack.stackFrames.map frameToJson))]),
        ("scopes", .obj [("scopes", .arr (c.scopes.scopes.map scopeToJson))]),
        ("variables",
          .obj [("variables", .arr (c.«variables».«variables».map variableToJson))])]

/-- `GET /debug/context` (lines 145-152): awaits `captureDebugContext`,
relays the context on success, and converts a caught error to
`500 (error: error.message)`. -/
def contextHandler (activeSession : Option DebugSession) (now : String) :
    Nat × JsonVal × List DapRequest :=
  match captureDebugContext activeSession now with
  | (.ok c, reqs) => (200, contextToJson c, reqs)
  | (.error e, reqs) => (500, .obj [("error", .str e.message)], reqs)

/-- `POST /debug/step` (lines 155-194): destructures
`(action = over) = req.body` (default applies only when the field is
absent), switches on the action, and returns 400 before executing any
host command when the action is invalid.  The third component is the
list of host commands passed to `vscode.commands.executeCommand`.
The post-step `setTimeout` re-capture is diagnostic-only and happens
after the command, never on the 400 path. -/
def stepHandler (action? : Option String) : Nat × JsonVal × List String :=
  let action := action?.getD "over"
  if action = "over" ∨ action = "into" ∨ action = "out" then
    let command :=
      if action = "over" then "workbench.action.debug.stepOver"
      else if action = "into" then "workbench.action.debug.stepInto"
      else "workbench.action.debug.stepOut"
    (200,
     .obj [("success", .bool true), ("action", .str ("step_" ++ action)),
           ("message", .str ("Executed step " ++ action))],
     [command])
  else
    (400, .obj [("error", .str "Invalid step action. Use: over, into, out")], [])

/-- `POST /debug/control` (lines 197-239): switches on the action and
executes the matching host command; the handler never consults
`vscode.debug.activeDebugSession`.  Unknown (or absent) action returns
400 before any command. -/
def controlHandler (action? : Option String) : Nat × JsonVal × List String :=
  let finish (action command message : String) : Nat × JsonVal × List String :=
    (200,
     .obj [("success", .bool true), ("action", .str action),
           ("message", .str message)],
     [command])
  match action? with
  | some "continue" =>
    finish "continue" "workbench.action.debug.continue" "Continued execution"
  | some "pause" =>
    finish "pause" "workbench.action.debug.pause" "Paused execution"
  | some "stop" =>
    finish "stop" "workbench.action.debug.stop" "Stopped debugging"
  | some "restart" =>
    finish "restart" "workbench.action.debug.restart" "Restarted debugging"
  | some "start" =>
    finish "start" "workbench.action.debug.start" "Started debugging"
  | _ =>
    (400,
     .obj [("error", .str "Invalid action. Use: continue, pause, stop, restart, start")],
     [])

/-- An entry of `vscode.debug.breakpoints` (the external host's
breakpoint set): a `SourceBreakpoint` carries its location's file path
and zero-based start line; a freshly constructed one is enabled. -/
inductive VsBreakpoint where
  | source (file : String) (line0 : Int) (enabled : Bool)
  | other (enabled : Bool)
deriving DecidableEq, Repr

/-- `vscode.debug.addBreakpoints([bp])`: the host appends to its set. -/
def addBreakpoints (bps : List VsBreakpoint) (bp : VsBreakpoint) : List VsBreakpoint :=
  bps ++ [bp]

/-- `vscode.debug.removeBreakpoints([bp])`: the host removes matching
breakpoints (modelled as removal of structurally equal entries). -/
def removeBreakpoints (bps : List VsBreakpoint) (bp : VsBreakpoint) : List VsBreakpoint :=
  bps.filter (fun b => b ≠ bp)

/-- `POST /debug/breakpoint` (lines 242-281): validates that `file`
and `line` are truthy (`!file || !line` rejects an absent field, an
empty path, and line 0), builds a location at the zero-based line
`line - 1`, and adds or removes the breakpoint.  Returns the HTTP
status, the JSON body, and the host's breakpoint set afterwards. -/
def breakpointHandler (file? : Option String) (line? : Option Int)
    (action? : Option String) (bps : List VsBreakpoint) :
    Nat × JsonVal × List VsBreakpoint :=
  match file?, line? with
  | some file, some line =>
    if file = "" ∨ line = 0 then
      (400, .obj [("error", .str "file and line are required")], bps)
    else
      let action := action?.getD "set"
      let breakpoint := VsBreakpoint.source file (line - 1) true
      if action = "set" then
        (200,
         .obj [("success", .bool true), ("action", .str "set"),
               ("file", .str file), ("line", .num line),
               ("message", .str ("Breakpoint set at " ++ file ++ ":" ++ toString line))],
         addBreakpoints bps breakpoint)
      else if action = "remove" then
        (200,
         .obj [("success", .bool true), ("action", .str "remove"),
               ("file", .str file), ("line", .num line),
               ("message", .str ("Breakpoint removed from " ++ file ++ ":" ++ toString line))],
         removeBreakpoints bps breakpoint)
      else
        (400, .obj [("error", .str "Invalid action. Use: set, remove")], bps)
  | _, _ => (400, .obj [("error", .str "file and line are required")], bps)

/-- The per-breakpoint projection of `GET /debug/breakpoints`
(lines 286-296): a source breakpoint reports its file, its line
converted back to 1-based, and its enabled flag. -/
def breakpointToJson (bp : VsBreakpoint) : JsonVal :=
  match bp with
  | .source file line0 enabled =>
    .obj [("type", .str "source"), ("file", .str file),
          ("line", .num (line0 + 1)), ("enabled", .bool enabled)]
  | .other enabled => .obj [("type", .str "other"), ("enabled", .bool enabled)]

/-- `GET /debug/breakpoints` (lines 284-302): maps the host's live set
and returns it with its count. -/
def listBreakpointsHandler (bps : List VsBreakpoint) : Nat × JsonVal :=
  (200, .obj [("breakpoints", .arr (bps.map breakpointToJson)),
              ("count", .num bps.length)])

/-- `POST /debug/evaluate` (lines 305-333): destructures
`(expression, context: evalContext = watch) = req.body`; `!expression`
rejects an absent or empty expression with 400 before the session
check; an absent session gives 400; otherwise the expression and
context are forwarded verbatim to `session.customRequest(evaluate, ...)`
and the response's `result` and `type` are relayed. -/
def evaluateHandler (expression? context? : Option String)
    (activeSession : Option DebugSession) : Nat × JsonVal × List DapRequest :=
  if expression? = none ∨ expression? = some "" then
    (400, .obj [("error", .str "expression is required")], [])
  else
    match activeSession with
    | none => (400, .obj [("error", .str "No active debug session")], [])
    | some session =>
      let expression := expression?.getD ""
      let evalContext := context?.getD "watch"
      let result := session.evaluateResp expression evalContext
      (200,
       .obj [("success", .bool true), ("expression", .str expression),
             ("result", .str result.result), ("type", .str result.type)],
       [.evaluate expression evalContext])

/-- The fixed candidate list of `startExpressServer` (line 52). -/
def PORTS : List Nat := [3001, 3002, 3003, 3004, 3005, 3006, 3007, 3008, 3009, 3010]

/-- Digit characters of `n`, most significant first (the fuel, `n`
itself plus one, bounds the digit count and keeps the recursion
structural). -/
def natCharsAux : Nat → Nat → List Char
  | 0, _ => []
  | fuel + 1, n =>
    if n < 10 then [Nat.digitChar n]
    else natCharsAux fuel (n / 10) ++ [Nat.digitChar (n % 10)]

/-- Decimal digit characters of `n`, most significant first, as JS
number-to-string conversion (used by `JSON.stringify`) prints a
non-negative integer. -/
def natChars (n : Nat) : List Char :=
  natCharsAux (n + 1) n

/-- Decimal rendering of a non-negative integer. -/
def natToDecimal (n : Nat) : String :=
  String.mk (natChars n)

/-- The exact file content written by `writePortInfo` (lines 95-112):
`JSON.stringify((port, pid, timestamp, status: running), null, 2)`. -/
def portInfoJson (port pid : Nat) (timestamp : String) : String :=
  "\x7b\n  \"port\": " ++ natToDecimal port ++
  ",\n  \"pid\": " ++ natToDecimal pid ++
  ",\n  \"timestamp\": \"" ++ timestamp ++
  "\",\n  \"status\": \"running\"\n\x7d"

/-- The module-level state mutated by `startExpressServer`:
`serverInstance` and `currentPort` are the globals of lines 22-23,
`portFileContent` is the content of the descriptor file written by
`writePortInfo` (`none` when the file was never written), and
`errorShown` is the message passed to
`vscode.window.showErrorMessage`, if any. -/
structure ServerState where
  serverInstance : Option Nat
  currentPort : Option Nat
  portFileContent : Option String
  errorShown : Option String
deriving DecidableEq, Repr

/-- The `for (const port of PORTS)` loop of lines 54-85: `free port`
models `server.listen(port)` succeeding.  On success the loop stores
the instance and port, writes the descriptor, and breaks; the catch
block continues with the next candidate. -/
def startServerLoop (free : Nat → Bool) (pid : Nat) (now : String) :
    List Nat → ServerState → ServerState
  | [], st => st
  | port :: rest, st =>
    if free port then
      { st with
        serverInstance := some port
        currentPort := some port
        portFileContent := some (portInfoJson port pid now) }
    else
      startServerLoop free pid now rest st

/-- `startExpressServer` (lines 46-90) on an arbitrary ordered
candidate list: runs the binding loop from the initial (unset) state,
then shows the fatal error message iff no port was bound
(`if (!serverInstance)`). -/
def startExpressServer (free : Nat → Bool) (pid : Nat) (now : String)
    (candidatePorts : List Nat) : ServerState :=
  let st := startServerLoop free pid now candidatePorts
    { serverInstance := none, currentPort := none
      portFileContent := none, errorShown := none }
  if st.serverInstance = none then
    { st with
      errorShown := some "Failed to start Claude Debug API server on any port" }
  else st

/-- Concrete frame used by witnesses (the spec's scenario frame). -/
def demoFrame : StackFrame :=
  { id := 16, name := "main", line := 42, column := 5, sourcePath := some "/a.js" }

/-- Concrete scope used by witnesses. -/
def demoScope : Scope := { name := "Local", variablesReference := 1 }

/-- Concrete variable used by witnesses. -/
def demoVariable : Variable := { name := "data", value := "Object", type := "Object" }

/-- Concrete session used by witnesses: one frame, one scope, one
variable, and an evaluate primitive answering `7 : number`. -/
def demoSession : DebugSession :=
  { name := "demo", type := "node"
    stackTraceResp := fun _ => { stackFrames := [demoFrame] }
    scopesResp := fun _ => { scopes := [demoScope] }
    variablesResp := fun _ => { «variables» := [demoVariable] }
    evaluateResp := fun _ _ => { result := "7", type := "number" } }

/-- Session whose `stackTrace` request returns no frames. -/
def emptyStackSession : DebugSession :=
  { name := "demo", type := "node"
    stackTraceResp := fun _ => { stackFrames := [] }
    scopesResp := fun _ => { scopes := [demoScope] }
    variablesResp := fun _ => { «variables» := [demoVariable] }
    evaluateResp := fun _ _ => { result := "7", type := "number" } }

/-- Session whose `scopes` request returns no scopes. -/
def emptyScopesSession : DebugSession :=
  { name := "demo", type := "node"
    stackTraceResp := fun _ => { stackFrames := [demoFrame] }
    scopesResp := fun _ => { scopes := [] }
    variablesResp := fun _ => { «variables» := [demoVariable] }
    evaluateResp := fun _ _ => { result := "7", type := "number" } }

/-- C1: the claim says an empty `stackFrames` result makes
`captureDebugContext` fail with `EmptyStack` without indexing the
empty sequence (and an empty `scopes` result fail with `EmptyScopes`).
The code has no such checks: at a session whose stack trace is empty
it evaluates `stackResp.stackFrames[0].id`, i.e. it does index the
empty sequence, and the read of `.id` on the resulting `undefined`
raises a TypeError, which the route layer surfaces as a generic
error — no dedicated `EmptyStack` error exists anywhere; the empty
`scopes` case fails the same way on `.variablesReference`. -/
theorem c1_empty_stack_indexes_and_type_errors :
    captureDebugContext (some emptyStackSession) "2026-01-01T00:00:00.000Z" =
      (.error (.typeError "Cannot read properties of undefined (reading 'id')"),
       [.stackTrace 1]) ∧
    captureDebugContext (some emptyScopesSession) "2026-01-01T00:00:00.000Z" =
      (.error (.typeError
          "Cannot read properties of undefined (reading 'variablesReference')"),
       [.stackTrace 1, .scopes 16]) := ⟨rfl, rfl⟩

/-- C2: with no active session, `captureDebugContext` throws
"No active debug session" having issued no DAP request; with a session
whose stack and scope lists are non-empty it issues exactly
`stackTrace (threadId 1)`, then `scopes` with the first frame's id,
then `variables` with the first scope's `variablesReference`, in that
order, and assembles the snapshot out of the capture timestamp, the
session's name and type, the top frame's file/function/line/column,
and the three raw responses. -/
theorem c2_capture_protocol (now : String) :
    captureDebugContext none now = (.error (.thrown "No active debug session"), []) ∧
    ∀ (s : DebugSession) (f : StackFrame) (fs : List StackFrame)
      (sc : Scope) (scs : List Scope),
      (s.stackTraceResp 1).stackFrames = f :: fs →
      (s.scopesResp f.id).scopes = sc :: scs →
      captureDebugContext (some s) now =
        (.ok
          { timestamp := now
            session := { name := s.name, type := s.type }
            currentFrame :=
              { file := f.sourcePath, function := f.name
                line := f.line, column := f.column }
            stack := s.stackTraceResp 1
            scopes := s.scopesResp f.id
            «variables» := s.variablesResp sc.variablesReference },
         [.stackTrace 1, .scopes f.id, .variables sc.variablesReference]) := by
  refine ⟨rfl, ?_⟩
  intro s f fs sc scs h1 h2
  simp [captureDebugContext, h1, h2]

/-- Witness for C2 at the concrete `demoSession`. -/
theorem c2_capture_protocol_witness :
    captureDebugContext (some demoSession) "t" =
      (.ok
        { timestamp := "t"
          session := { name := demoSession.name, type := demoSession.type }
          currentFrame :=
            { file := demoFrame.sourcePath, function := demoFrame.name
              line := demoFrame.line, column := demoFrame.column }
          stack := demoSession.stackTraceResp 1
          scopes := demoSession.scopesResp demoFrame.id
          «variables» := demoSession.variablesResp demoScope.variablesReference },
       [.stackTrace 1, .scopes demoFrame.id,
        .variables demoScope.variablesReference]) :=
  (c2_capture_protocol "t").2 demoSession demoFrame [] demoScope [] rfl rfl

/-- C5: `POST /debug/step` with a present but invalid action returns
400 with the invalid-action message and executes no host command. -/
theorem c5_invalid_step_rejected (a : String)
    (h1 : a ≠ "over") (h2 : a ≠ "into") (h3 : a ≠ "out") :
    stepHandler (some a) =
      (400, .obj [("error", .str "Invalid step action. Use: over, into, out")], []) := by
  simp [stepHandler, h1, h2, h3]

/-- Witness for C5 at the concrete action "jump". -/
theorem c5_invalid_step_rejected_witness :
    stepHandler (some "jump") =
      (400, .obj [("error", .str "Invalid step action. Use: over, into, out")], []) :=
  c5_invalid_step_rejected "jump" (by decide) (by decide) (by decide)

/-- C10: `POST /debug/step` with the action field absent defaults it
to "over", executes the host's step-over command, and answers
`200 (success true, action step_over)`; a 400 arises exactly for a
present-but-invalid action. -/
theorem c10_step_default_over :
    stepHandler none =
      (200,
       .obj [("success", .bool true), ("action", .str "step_over"),
             ("message", .str "Executed step over")],
       ["workbench.action.debug.stepOver"]) ∧
    ∀ action? : Option String,
      (stepHandler action?).1 = 400 ↔
        ∃ a, action? = some a ∧ a ≠ "over" ∧ a ≠ "into" ∧ a ≠ "out" := by
  refine ⟨rfl, ?_⟩
  intro action?
  match action? with
  | none => simp [stepHandler]
  | some a =>
    by_cases h : a = "over" ∨ a = "into" ∨ a = "out"
    · simp only [stepHandler, Option.getD_some, if_pos h]
      simp only [show (200 : Nat) ≠ 400 from by decide, false_iff]
      rintro ⟨b, hb, hbo, hbi, hbu⟩
      cases hb
      rcases h with h | h | h
      · exact hbo h
      · exact hbi h
      · exact hbu h
    · simp only [stepHandler, Option.getD_some, if_neg h]
      push_neg at h
      simp only [true_iff, show (400 : Nat) = 400 from rfl]
      exact ⟨a, rfl, h.1, h.2.1, h.2.2⟩

/-- C6: `POST /debug/evaluate` rejects an absent or empty expression
with `400 "expression is required"` whatever the session state, and
issues no DAP request doing so; a non-empty expression with no active
session gives `400 "No active debug session"`; with a session it
forwards the expression and the context (defaulted to "watch") to the
session's evaluate primitive and relays the response's `result` and
`type` verbatim. -/
theorem c6_evaluate_contract :
    (∀ (context? : Option String) (s : Option DebugSession),
      evaluateHandler none context? s =
        (400, .obj [("error", .str "expression is required")], []) ∧
      evaluateHandler (some "") context? s =
        (400, .obj [("error", .str "expression is required")], [])) ∧
    (∀ (e : String) (context? : Option String), e ≠ "" →
      evaluateHandler (some e) context? none =
        (400, .obj [("error", .str "No active debug session")], [])) ∧
    (∀ (e : String) (context? : Option String) (s : DebugSession), e ≠ "" →
      evaluateHandler (some e) context? (some s) =
        (200,
         .obj [("success", .bool true), ("expression", .str e),
               ("result", .str (s.evaluateResp e (context?.getD "watch")).result),
               ("type", .str (s.evaluateResp e (context?.getD "watch")).type)],
         [.evaluate e (context?.getD "watch")])) := by
  refine ⟨fun context? s => ⟨by simp [evaluateHandler], by simp [evaluateHandler]⟩,
    fun e context? he => by simp [evaluateHandler, he],
    fun e context? s he => by simp [evaluateHandler, he]⟩

/-- Witness for C6 at the expression "1+1" against no session and
against `demoSession` (whose evaluate primitive answers `7 : number`). -/
theorem c6_evaluate_contract_witness :
    evaluateHandler (some "1+1") none none =
      (400, .obj [("error", .str "No active debug session")], []) ∧
    evaluateHandler (some "1+1") none (some demoSession) =
      (200,
       .obj [("success", .bool true), ("expression", .str "1+1"),
             ("result", .str "7"), ("type", .str "number")],
       [.evaluate "1+1" "watch"]) :=
  ⟨c6_evaluate_contract.2.1 "1+1" none (by decide),
   c6_evaluate_contract.2.2 "1+1" none demoSession (by decide)⟩

/-- C7: setting a breakpoint at a 1-based line `n` stores it at the
zero-based line `n - 1`, and the listing endpoint converts back,
reporting `(type source, file, line n, enabled true)`: the set-then-
list round trip preserves the caller-facing 1-based line. -/
theorem c7_breakpoint_round_trip (file : String) (line : Int)
    (bps : List VsBreakpoint) (hf : file ≠ "") (hl : 1 ≤ line) :
    (breakpointHandler (some file) (some line) (some "set") bps).1 = 200 ∧
    (breakpointHandler (some file) (some line) (some "set") bps).2.2 =
      bps ++ [VsBreakpoint.source file (line - 1) true] ∧
    ∃ entries count,
      listBreakpointsHandler
          ((breakpointHandler (some file) (some line) (some "set") bps).2.2) =
        (200, .obj [("breakpoints", .arr entries), ("count", count)]) ∧
      JsonVal.obj [("type", .str "source"), ("file", .str file),
          ("line", .num line), ("enabled", .bool true)] ∈ entries := by
  have hline : ¬(file = "" ∨ line = 0) := by
    push_neg
    exact ⟨hf, by omega⟩
  have hbp :
      breakpointHandler (some file) (some line) (some "set") bps =
        (200,
         .obj [("success", .bool true), ("action", .str "set"),
               ("file", .str file), ("line", .num line),
               ("message",
                .str ("Breakpoint set at " ++ file ++ ":" ++ toString line))],
         bps ++ [VsBreakpoint.source file (line - 1) true]) := by
    simp [breakpointHandler, hline, addBreakpoints]
  refine ⟨by rw [hbp], by rw [hbp], ?_⟩
  rw [hbp]
  refine ⟨(bps ++ [VsBreakpoint.source file (line - 1) true]).map breakpointToJson,
    .num (bps ++ [VsBreakpoint.source file (line - 1) true]).length, rfl, ?_⟩
  rw [List.map_append]
  refine List.mem_append_right _ ?_
  have : line - 1 + 1 = line := by omega
  simp [breakpointToJson, this]

/-- Witness for C7: the spec scenario `/a.js` line 25 starting from an
empty breakpoint set. -/
theorem c7_breakpoint_round_trip_witness :
    (breakpointHandler (some "/a.js") (some 25) (some "set") []).1 = 200 ∧
    (breakpointHandler (some "/a.js") (some 25) (some "set") []).2.2 =
      [VsBreakpoint.source "/a.js" 24 true] ∧
    ∃ entries count,
      listBreakpointsHandler
          ((breakpointHandler (some "/a.js") (some 25) (some "set") []).2.2) =
        (200, .obj [("breakpoints", .arr entries), ("count", count)]) ∧
      JsonVal.obj [("type", .str "source"), ("file", .str "/a.js"),
          ("line", .num 25), ("enabled", .bool true)] ∈ entries :=
  c7_breakpoint_round_trip "/a.js" 25 [] (by decide) (by decide)

/-- C8: with no active session, `GET /debug/context` answers
`500 (error "No active debug session")` (and has issued no DAP
request), while `POST /debug/control` with any of the five valid
actions still answers `200 (success true, action, message)` after
delegating one command to the host executor — the control handler
takes no session input at all, mirroring the code, which never
consults `vscode.debug.activeDebugSession` there. -/
theorem c8_no_session_context_vs_control (now : String) :
    contextHandler none now =
      (500, .obj [("error", .str "No active debug session")], []) ∧
    ∀ a, a = "continue" ∨ a = "pause" ∨ a = "stop" ∨ a = "restart" ∨ a = "start" →
      (controlHandler (some a)).1 = 200 ∧
      ∃ command message,
        controlHandler (some a) =
          (200,
           .obj [("success", .bool true), ("action", .str a),
                 ("message", .str message)],
           [command]) := by
  refine ⟨rfl, ?_⟩
  rintro a (rfl | rfl | rfl | rfl | rfl) <;> exact ⟨rfl, _, _, rfl⟩

/-- Witness for C8 at the action "continue". -/
theorem c8_no_session_context_vs_control_witness :
    contextHandler none "t" =
      (500, .obj [("error", .str "No active debug session")], []) ∧
    (controlHandler (some "continue")).1 = 200 ∧
    ∃ command message,
      controlHandler (some "continue") =
        (200,
         .obj [("success", .bool true), ("action", .str "continue"),
               ("message", .str message)],
         [command]) :=
  ⟨(c8_no_session_context_vs_control "t").1,
   (c8_no_session_context_vs_control "t").2 "continue" (Or.inl rfl)⟩

/-- The binding loop, run over a list containing a free port, breaks
at the first free candidate, records it, and writes the descriptor. -/
theorem startServerLoop_first_free (free : Nat → Bool) (pid : Nat) (now : String) :
    ∀ (ports : List Nat) (st : ServerState), (∃ p ∈ ports, free p) →
      ∃ p, ports.find? free = some p ∧
        startServerLoop free pid now ports st =
          { st with
            serverInstance := some p
            currentPort := some p
            portFileContent := some (portInfoJson p pid now) } := by
  intro ports
  induction ports with
  | nil => rintro st ⟨p, hp, _⟩; cases hp
  | cons q rest ih =>
    rintro st ⟨p, hp, hfree⟩
    by_cases hq : free q
    · exact ⟨q, by simp [List.find?_cons, hq], by simp [startServerLoop, hq]⟩
    · have hprest : p ∈ rest := by
        rcases List.mem_cons.mp hp with rfl | h
        · exact absurd hfree hq
        · exact h
      obtain ⟨r, hfind, hrun⟩ := ih st ⟨p, hprest, hfree⟩
      exact ⟨r, by simp [List.find?_cons, hq, hfind], by simp [startServerLoop, hq, hrun]⟩

/-- The binding loop over a list with no free port leaves the state
untouched. -/
theorem startServerLoop_none_free (free : Nat → Bool) (pid : Nat) (now : String) :
    ∀ (ports : List Nat) (st : ServerState), (∀ p ∈ ports, ¬ free p) →
      startServerLoop free pid now ports st = st := by
  intro ports
  induction ports with
  | nil => intro st _; rfl
  | cons q rest ih =>
    intro st h
    have hq : ¬ free q := h q (by simp)
    have := ih st (fun p hp => h p (by simp [hp]))
    simp [startServerLoop, hq, this]

/-- C3: on any ordered candidate list containing at least one free
port, `startExpressServer` binds the first free candidate in list
order (`List.find?`), records it as the current port, writes the port
descriptor for it, and shows no error: candidates that fail to bind
are skipped silently by the catch-continue. -/
theorem c3_start_binds_first_free_port (free : Nat → Bool) (pid : Nat)
    (now : String) (candidatePorts : List Nat)
    (h : ∃ p ∈ candidatePorts, free p) :
    ∃ p, candidatePorts.find? free = some p ∧
      startExpressServer free pid now candidatePorts =
        { serverInstance := some p
          currentPort := some p
          portFileContent := some (portInfoJson p pid now)
          errorShown := none } := by
  obtain ⟨p, hfind, hrun⟩ :=
    startServerLoop_first_free free pid now candidatePorts
      { serverInstance := none, currentPort := none
        portFileContent := none, errorShown := none } h
  exact ⟨p, hfind, by simp [startExpressServer, hrun]⟩

/-- Witness for C3: only port 3002 of the code's fixed `PORTS` list is
free; the server binds 3002. -/
theorem c3_start_binds_first_free_port_witness :
    ∃ p, PORTS.find? (fun q => q == 3002) = some p ∧
      startExpressServer (fun q => q == 3002) 77 "t" PORTS =
        { serverInstance := some p
          currentPort := some p
          portFileContent := some (portInfoJson p 77 "t")
          errorShown := none } :=
  c3_start_binds_first_free_port (fun q => q == 3002) 77 "t" PORTS
    ⟨3002, by decide, by decide⟩

/-- C4: on any candidate list where every port fails to bind,
`startExpressServer` ends with no server instance, shows the fatal
"Failed to start Claude Debug API server on any port" message to the
operator, and writes no port descriptor file. -/
theorem c4_start_all_ports_occupied (free : Nat → Bool) (pid : Nat)
    (now : String) (candidatePorts : List Nat)
    (h : ∀ p ∈ candidatePorts, ¬ free p) :
    startExpressServer free pid now candidatePorts =
      { serverInstance := none
        currentPort := none
        portFileContent := none
        errorShown := some "Failed to start Claude Debug API server on any port" } := by
  have hrun := startServerLoop_none_free free pid now candidatePorts
    { serverInstance := none, currentPort := none
      portFileContent := none, errorShown := none } h
  simp [startExpressServer, hrun]

/-- Witness for C4: every port of the fixed `PORTS` list is occupied. -/
theorem c4_start_all_ports_occupied_witness :
    startExpressServer (fun _ => false) 77 "t" PORTS =
      { serverInstance := none
        currentPort := none
        portFileContent := none
        errorShown := some "Failed to start Claude Debug API server on any port" } :=
  c4_start_all_ports_occupied (fun _ => false) 77 "t" PORTS (by decide)

/-- The literal part of the test script's discovery pattern
(`part_002` line 10): the seven characters matched verbatim by
`grep -o` before the digit run. -/
def portLit : List Char := ['"', 'p', 'o', 'r', 't', '"', ':']

/-- One pass of `grep -o` with the script's first pattern
(the `portLit` literal followed by `[0-9]*`): left-to-right,
non-overlapping, greedy — at each occurrence of the literal the match
extends over the following maximal digit run (possibly empty, since
`*` admits zero digits), and scanning resumes after the match.  The
fuel argument (the remaining input length at the start) only bounds
the recursion. -/
def portMatchesAux : Nat → List Char → List (List Char)
  | 0, _ => []
  | _, [] => []
  | fuel + 1, c :: cs =>
    if portLit.isPrefixOf (c :: cs) then
      let rest := (c :: cs).drop portLit.length
      (portLit ++ rest.takeWhile Char.isDigit) ::
        portMatchesAux fuel (rest.dropWhile Char.isDigit)
    else
      portMatchesAux fuel cs

/-- All matches of the script's first `grep -o` over the file content. -/
def portMatches (cs : List Char) : List (List Char) :=
  portMatchesAux cs.length cs

/-- One pass of the script's second `grep -o '[0-9]*'`: the maximal
non-empty digit runs of a line, in order (GNU `grep -o` prints no
empty match, so a line without digits contributes nothing). -/
def digitRunsAux : Nat → List Char → List (List Char)
  | 0, _ => []
  | _, [] => []
  | fuel + 1, c :: cs =>
    if c.isDigit then
      (c :: cs.takeWhile Char.isDigit) ::
        digitRunsAux fuel (cs.dropWhile Char.isDigit)
    else
      digitRunsAux fuel cs

/-- All non-empty digit runs of a character list. -/
def digitRuns (cs : List Char) : List (List Char) :=
  digitRunsAux cs.length cs

/-- The repository's descriptor reader, from the test script
(`src/unnamed/part_002` line 10):
`PORT=$(cat /tmp/vscode-claude-debug-port.json | grep -o (pattern) | grep -o (digits))`.
The first grep emits each occurrence of `"port":` with its greedy
digit run; the second extracts the non-empty digit runs of that
output.  The script's `PORT` is the concatenated output; it reads the
port only — nothing in the repository ever reads the `pid` member
back. -/
def scriptReadPort (content : String) : List (List Char) :=
  (portMatches content.data).flatMap digitRuns

/-- C9: the claim says writing the descriptor and reading the file
back yields the written port and process id.  The repository's own
reader — the test script's grep pipeline — contradicts the writer:
`writePortInfo` pretty-prints with `JSON.stringify(.., null, 2)`, so
the file holds `"port": 3001` with a space after the colon, while the
script's pattern requires the digits to follow the colon immediately.
The only match of the first grep is therefore the bare `"port":`
literal with an empty digit run, the second grep extracts nothing,
and the script recovers no port at all (and no code in the repository
reads the pid back).  Evaluated at the written content for port 3001,
pid 12345. -/
theorem c9_descriptor_read_back_fails :
    portMatches (portInfoJson 3001 12345 "2026-01-01T00:00:00.000Z").data =
      [portLit] ∧
    scriptReadPort (portInfoJson 3001 12345 "2026-01-01T00:00:00.000Z") = [] ∧
    natToDecimal 3001 ≠ "" := by
  refine ⟨by decide, by decide, by decide⟩
